import Mathlib

/-!
Verification of the retrieval-and-answer pipeline in `main.py`
(messy-langgraph-qdrant).

The pipeline threads a mutable state dictionary through two LangGraph
nodes, `retrieve_documents_node` and `generate_answer_node`, wired as the
linear graph `retrieve -> generate_answer -> END`.  We embed the state
dictionary as a structure, the two node functions as pure state
transformers, and the compiled workflow as their composition.  External
collaborators (the Qdrant client's `search` call together with the
embedding computation inside the same `try` block) are abstracted as an
`Except` value passed to the retrieval node: `Except.ok hits` models a
successful search returning `hits`, `Except.error e` models the `try`
block raising an exception whose `str` is `e`.
-/

/-- One Qdrant search hit, as consumed by `retrieve_documents_node`:
`hit.id`, `hit.payload.get("content", "")`, `hit.payload.get("metadata", ...)`
and `hit.score`.  The payload lookups can miss, hence the `Option` fields;
metadata is opaque to the pipeline and embedded as an association list;
the floating-point score is embedded as a rational. -/
structure Hit where
  id : String
  payloadContent : Option String
  payloadMetadata : Option (List (String × String))
  score : ℚ
deriving Repr, DecidableEq

/-- One entry of `state["retrieved_docs"]` as built by
`retrieve_documents_node` (main.py lines 94-100). -/
structure RetrievedDoc where
  id : String
  content : String
  metadata : List (String × String)
  score : ℚ
deriving Repr, DecidableEq

/-- The state dictionary created by `create_initial_state` (main.py lines
74-81) and threaded through the LangGraph nodes.  `error` is `None` or a
string, hence `Option String`. -/
structure PipelineState where
  query : String
  retrieved_docs : List RetrievedDoc
  final_answer : String
  processing_steps : List String
  error : Option String
deriving Repr, DecidableEq

/-- Embeds `create_initial_state` (main.py lines 74-81). -/
def create_initial_state (query : String) : PipelineState :=
  { query := query
    retrieved_docs := []
    final_answer := ""
    processing_steps := []
    error := none }

/-- Python truthiness of `state["error"]` (a value that is `None` or a
string): `None` and the empty string are falsy, every other string is
truthy.  This is exactly the test performed by `if state["error"]:` at
main.py line 109. -/
def pyTruthyStr : Option String → Bool
  | none => false
  | some s => !(s == "")

/-- Python slicing `s[:n]` on a string: the first `n` characters (all of
`s` when `s` is shorter).  Embeds `top_doc[:200]` at main.py line 120. -/
def pySlice (s : String) (n : Nat) : String :=
  String.mk (s.data.take n)

/-- The document dictionary built from one search hit at main.py lines
95-100: `hit.payload.get("content", "")` defaults a missing content to the
empty string and `hit.payload.get("metadata", ...)` defaults missing
metadata. -/
def hitToDoc (h : Hit) : RetrievedDoc :=
  { id := h.id
    content := h.payloadContent.getD ""
    metadata := h.payloadMetadata.getD []
    score := h.score }

/-- Embeds `retrieve_documents_node` (main.py lines 84-106).  The fallible part of
the `try` block — `generate_embedding` followed by
`global_qdrant_client.search` — is abstracted by the `searchRes` argument.
On success the node stores the converted hits in `retrieved_docs` and
appends `"Retrieved documents from Qdrant"` to `processing_steps`; on an
exception it sets `error` to `"Retrieval failed: "` followed by the
exception text and touches nothing else. -/
def retrieve_documents_node (searchRes : Except String (List Hit))
    (state : PipelineState) : PipelineState :=
  match searchRes with
  | Except.ok hits =>
      { state with
        retrieved_docs := hits.map hitToDoc
        processing_steps := state.processing_steps ++ ["Retrieved documents from Qdrant"] }
  | Except.error e =>
      { state with error := some ("Retrieval failed: " ++ e) }

/-- Embeds `generate_answer_node` (main.py lines 108-122).  If `state["error"]`
is truthy the node sets `final_answer` to `"Error occurred: "` followed by
the error and returns; if `retrieved_docs` is empty it sets the
`"No relevant documents found."` sentinel and returns; otherwise it
composes the answer from the first document's content truncated to 200
characters and appends `"Generated final answer"` to `processing_steps`. -/
def generate_answer_node (state : PipelineState) : PipelineState :=
  if pyTruthyStr state.error then
    { state with final_answer := "Error occurred: " ++ state.error.getD "" }
  else
    match state.retrieved_docs with
    | [] => { state with final_answer := "No relevant documents found." }
    | d :: _ =>
        { state with
          final_answer := "Based on the document: " ++ pySlice d.content 200 ++ "..."
          processing_steps := state.processing_steps ++ ["Generated final answer"] }

/-- The compiled workflow built by `build_workflow` (main.py lines
127-143): entry point `retrieve`, then the unconditional edge to
`generate_answer`, then `END`.  `workflow.invoke(initial_state)` is thus
the composition of the two node functions in that order. -/
def runWorkflow (searchRes : Except String (List Hit))
    (state : PipelineState) : PipelineState :=
  generate_answer_node (retrieve_documents_node searchRes state)

/-- One full pipeline run for a query, as performed by the `/query`
route (main.py lines 190-191): build the initial state, then invoke the
compiled workflow. -/
def runQuery (searchRes : Except String (List Hit)) (query : String) :
    PipelineState :=
  runWorkflow searchRes (create_initial_state query)

/-- The response model `WorkflowResult` (main.py lines 37-41). -/
structure WorkflowResult where
  initial_query : String
  retrieved_docs : List RetrievedDoc
  final_answer : String
  processing_time : ℚ
deriving Repr, DecidableEq

/-- The field names of the `WorkflowResult` pydantic model, in declaration
order (main.py lines 37-41). -/
def workflowResultFields : List String :=
  ["initial_query", "retrieved_docs", "final_answer", "processing_time"]

/-- Embeds the `/query` route `query_documents` (main.py lines 181-200): runs the
workflow on the input query and packages the final state into a
`WorkflowResult`.  The wall-clock `processing_time` is an external input
here (embedded as a rational). -/
def query_documents (searchRes : Except String (List Hit)) (query : String)
    (elapsed : ℚ) : WorkflowResult :=
  let final_state := runQuery searchRes query
  { initial_query := query
    retrieved_docs := final_state.retrieved_docs
    final_answer := final_state.final_answer
    processing_time := elapsed }

/-- Embeds `global_embedding_dim` (main.py line 22). -/
def global_embedding_dim : Nat := 384

/-- Draw `n` successive values from a pseudo-random generator modelled as
a state machine with transition `next`, returning the drawn values in
order together with the final generator state. -/
def drawN {σ : Type} (next : σ → ℚ × σ) : σ → Nat → List ℚ × σ
  | g, 0 => ([], g)
  | g, Nat.succ n =>
      let p := next g
      let r := drawN next p.2 n
      (p.1 :: r.1, r.2)

/-- Embeds `generate_embedding` (main.py lines 44-48).  The Python `random`
module and the builtin `hash` are external collaborators; they are
abstracted as parameters: `hash` is the (process-fixed, possibly
negative) string hash, `init` is `random.seed` building a fresh generator
state from the seed, `next` is one `random.random()` call producing a
value and the next generator state, and `g0` is the module's global
generator state before the call (unused, because the call reseeds first).  The function computes
`hash(text) % (10 ** 9)` with Python's nonnegative `%` semantics, reseeds
(discarding `g0`), and draws `global_embedding_dim` values. -/
def generate_embedding {σ : Type} (init : Nat → σ) (next : σ → ℚ × σ)
    (hash : String → Int) (_g0 : σ) (text : String) : List ℚ × σ :=
  let g1 := init ((hash text).emod (10 ^ 9)).toNat
  drawN next g1 global_embedding_dim

/-! ## Helper lemmas -/

/-- The error string written by the retrieval node is never empty, so the
truthiness test in `generate_answer_node` always fires on it. -/
lemma retrieval_error_nonempty (e : String) :
    ("Retrieval failed: " ++ e == "") = false := by
  simp only [beq_eq_false_iff_ne, ne_eq]
  intro h
  have hlen := congrArg String.length h
  rw [String.length_append] at hlen
  have h18 : ("Retrieval failed: " : String).length = 18 := by decide
  have h0 : ("" : String).length = 0 := rfl
  rw [h18, h0] at hlen
  omega

/-- Drawing `n` values yields a list of length `n`. -/
lemma drawN_length {σ : Type} (next : σ → ℚ × σ) (g : σ) (n : Nat) :
    (drawN next g n).1.length = n := by
  induction n generalizing g with
  | zero => rfl
  | succ n ih => simp [drawN, ih]

/-- Every drawn value satisfies any bound satisfied by the generator's
single-step output. -/
lemma drawN_mem_range {σ : Type} (next : σ → ℚ × σ)
    (hnext : ∀ g : σ, 0 ≤ (next g).1 ∧ (next g).1 < 1) (g : σ) (n : Nat) :
    ∀ x ∈ (drawN next g n).1, 0 ≤ x ∧ x < 1 := by
  induction n generalizing g with
  | zero => intro x hx; simp [drawN] at hx
  | succ n ih =>
      intro x hx
      simp only [drawN, List.mem_cons] at hx
      rcases hx with hx | hx
      · exact hx ▸ hnext g
      · exact ih _ x hx

/-- Unfolding one draw. -/
lemma drawN_cons {σ : Type} (next : σ → ℚ × σ) (g : σ) (n : Nat) :
    (drawN next g (n + 1)).1 = (next g).1 :: (drawN next (next g).2 n).1 := rfl

/-! ## C1 — steps after an error point -/

/-- C1 counterexample.  The claim says that once `error` is set, every
subsequent step leaves the entire `PipelineState` unchanged.  In the code,
`generate_answer_node` on an errored state overwrites `final_answer` with
"Error occurred: ..." (main.py line 110), so the state produced by a failed
retrieval is changed by the answer step. -/
theorem c1_counterexample :
    generate_answer_node
        (retrieve_documents_node (Except.error "connection refused")
          (create_initial_state "q")) ≠
      retrieve_documents_node (Except.error "connection refused")
        (create_initial_state "q") := by
  decide

/-- C1 amended.  On a state whose `error` is set (truthy), running
`generate_answer_node` changes only the `final_answer` field — it becomes
"Error occurred: " followed by the error — and leaves `query`,
`retrieved_docs`, `processing_steps` and `error` unchanged; it is not a
full no-op. -/
theorem c1_amended_theorem (s : PipelineState)
    (h : pyTruthyStr s.error = true) :
    generate_answer_node s =
      { s with final_answer := "Error occurred: " ++ s.error.getD "" } := by
  simp [generate_answer_node, h]

/-- C1 witness: the amended statement evaluated on a concrete errored
state. -/
theorem c1_witness :
    generate_answer_node
        { query := "q", retrieved_docs := [], final_answer := "",
          processing_steps := [], error := some "boom" } =
      { query := "q", retrieved_docs := [], final_answer := "Error occurred: boom",
        processing_steps := [], error := some "boom" } := by
  have h := c1_amended_theorem
    { query := "q", retrieved_docs := [], final_answer := "",
      processing_steps := [], error := some "boom" } (by decide)
  simpa using h

/-! ## C2 — provenance log iff no error -/

/-- C2 counterexample.  The claim says a step's name is appended to the
log iff the step did not itself set `error`.  On the initial state for a
query — no pre-existing error and no retrieved documents —
`generate_answer_node` sets no error (its result's `error` is still
`none`) yet appends nothing to `processing_steps` (it returns at the
empty-documents early exit, main.py lines 114-116), refuting the
biconditional. -/
theorem c2_counterexample :
    ¬ (((generate_answer_node (create_initial_state "q")).processing_steps =
          (create_initial_state "q").processing_steps ++ ["Generated final answer"]) ↔
        (generate_answer_node (create_initial_state "q")).error = none) := by
  decide

/-- C2 amended.  For `retrieve_documents_node` the biconditional holds:
on an error-free input state its log entry "Retrieved documents from
Qdrant" is appended iff the node did not set `error`.  For
`generate_answer_node` on an error-free input state, the node never sets
`error`, and its entry "Generated final answer" is appended iff
`retrieved_docs` is non-empty — in the empty case nothing is appended even
though no error was set. -/
theorem c2_amended_theorem :
    (∀ (res : Except String (List Hit)) (s : PipelineState), s.error = none →
        (((retrieve_documents_node res s).processing_steps =
            s.processing_steps ++ ["Retrieved documents from Qdrant"]) ↔
          (retrieve_documents_node res s).error = none)) ∧
      (∀ s : PipelineState, s.error = none →
        (generate_answer_node s).error = none ∧
          (((generate_answer_node s).processing_steps =
              s.processing_steps ++ ["Generated final answer"]) ↔
            s.retrieved_docs ≠ [])) := by
  constructor
  · intro res s hs
    cases res with
    | ok hits => simp [retrieve_documents_node, hs]
    | error e => simp [retrieve_documents_node, hs]
  · intro s hs
    simp only [generate_answer_node, hs, pyTruthyStr]
    cases hd : s.retrieved_docs with
    | nil => simp
    | cons d rest => simp

/-- C2 witness: both amended parts evaluated on concrete error-free
states (a failing retrieval, and an answer step over one document). -/
theorem c2_witness :
    (((retrieve_documents_node (Except.error "down")
          { query := "q", retrieved_docs := [], final_answer := "",
            processing_steps := [], error := none }).processing_steps =
        ([] : List String) ++ ["Retrieved documents from Qdrant"]) ↔
      (retrieve_documents_node (Except.error "down")
          { query := "q", retrieved_docs := [], final_answer := "",
            processing_steps := [], error := none }).error = none) ∧
    ((generate_answer_node
          { query := "q",
            retrieved_docs := [{ id := "1", content := "alpha", metadata := [], score := 1 }],
            final_answer := "", processing_steps := [], error := none }).error = none ∧
      (((generate_answer_node
            { query := "q",
              retrieved_docs := [{ id := "1", content := "alpha", metadata := [], score := 1 }],
              final_answer := "", processing_steps := [], error := none }).processing_steps =
          ([] : List String) ++ ["Generated final answer"]) ↔
        ([{ id := "1", content := "alpha", metadata := [], score := 1 }] :
            List RetrievedDoc) ≠ [])) := by
  exact ⟨c2_amended_theorem.1 (Except.error "down") _ rfl,
    c2_amended_theorem.2 _ rfl⟩

/-! ## C3 — shape of the provenance log -/

/-- C3 counterexample.  The claim says the final log is exactly
["retrieve"] or ["retrieve", "generate_answer"].  On a run whose search
succeeds with zero hits, the final log is
["Retrieved documents from Qdrant"] — the code logs descriptive phrases
(main.py lines 102 and 121), not the node names — which is neither of the
claimed values. -/
theorem c3_counterexample :
    (runQuery (Except.ok []) "q").processing_steps ≠ ["retrieve"] ∧
      (runQuery (Except.ok []) "q").processing_steps ≠
        ["retrieve", "generate_answer"] := by
  decide

/-- C3 amended.  For every query and every search outcome, the final
`processing_steps` log is exactly [], or
["Retrieved documents from Qdrant"], or
["Retrieved documents from Qdrant", "Generated final answer"], in that
order — the empty log occurring when retrieval fails, the singleton when
retrieval succeeds with no hits. -/
theorem c3_amended_theorem (res : Except String (List Hit)) (q : String) :
    (runQuery res q).processing_steps = [] ∨
      (runQuery res q).processing_steps = ["Retrieved documents from Qdrant"] ∨
      (runQuery res q).processing_steps =
        ["Retrieved documents from Qdrant", "Generated final answer"] := by
  cases res with
  | ok hits =>
      cases hits with
      | nil =>
          right; left
          rfl
      | cons h rest =>
          right; right
          rfl
  | error e =>
      left
      simp [runQuery, runWorkflow, retrieve_documents_node, create_initial_state,
        generate_answer_node, pyTruthyStr, retrieval_error_nonempty e]

/-! ## C4 — answer shape on a successful, non-empty retrieval -/

/-- C4 confirmed.  Whenever the search succeeds with at least one hit, the
final answer is exactly "Based on the document: " followed by the first
200 characters of the first (highest-ranked) hit's content, followed by
"...", and the embedded fragment indeed has length at most 200. -/
theorem c4_theorem (h : Hit) (hs : List Hit) (q : String) :
    (runQuery (Except.ok (h :: hs)) q).final_answer =
        "Based on the document: " ++ pySlice (hitToDoc h).content 200 ++ "..." ∧
      (pySlice (hitToDoc h).content 200).length ≤ 200 := by
  constructor
  · rfl
  · show (String.mk _).length ≤ 200
    have hmk : (String.mk ((hitToDoc h).content.data.take 200)).length =
        ((hitToDoc h).content.data.take 200).length := rfl
    rw [hmk]
    simp

/-! ## C5 — sentinel answer on an empty retrieval -/

/-- C5 confirmed.  Whenever the search succeeds with zero hits, the final
answer is exactly the "No relevant documents found." sentinel. -/
theorem c5_theorem (q : String) :
    (runQuery (Except.ok []) q).final_answer = "No relevant documents found." := by
  rfl

/-! ## C6 — error surfaced in the final state and answer -/

/-- C6 confirmed.  Whenever the embedding-and-search block raises, the
final state's `error` is set (to "Retrieval failed: " followed by the
exception text, in particular not `none`) and the final answer starts
with — hence contains — the literal substring "Error occurred". -/
theorem c6_theorem (e q : String) :
    (runQuery (Except.error e) q).error = some ("Retrieval failed: " ++ e) ∧
      ∃ rest, (runQuery (Except.error e) q).final_answer =
        "Error occurred" ++ rest := by
  constructor
  · rfl
  · refine ⟨": Retrieval failed: " ++ e, ?_⟩
    show (generate_answer_node _).final_answer = _
    simp [generate_answer_node, retrieve_documents_node, create_initial_state,
      pyTruthyStr, retrieval_error_nonempty e]
    rfl

/-! ## C7 — atomicity of the retrieval step on failure -/

/-- C7 confirmed.  For every input state, if the embedding-and-search
block raises, `retrieve_documents_node` sets `error` to
"Retrieval failed: " followed by the underlying exception text, leaves
`retrieved_docs` at its prior value, and appends nothing to the
provenance log (it also leaves `query` and `final_answer` untouched). -/
theorem c7_theorem (e : String) (s : PipelineState) :
    (retrieve_documents_node (Except.error e) s).error =
        some ("Retrieval failed: " ++ e) ∧
      (retrieve_documents_node (Except.error e) s).retrieved_docs =
        s.retrieved_docs ∧
      (retrieve_documents_node (Except.error e) s).processing_steps =
        s.processing_steps ∧
      (retrieve_documents_node (Except.error e) s).query = s.query ∧
      (retrieve_documents_node (Except.error e) s).final_answer =
        s.final_answer := by
  exact ⟨rfl, rfl, rfl, rfl, rfl⟩

/-! ## C8 — idempotence of the answer step -/

/-- C8 counterexample.  The claim says `generate_answer_node` composed
with itself equals a single application on every state.  On a state with
one retrieved document and no error, the second application appends
"Generated final answer" to `processing_steps` a second time (main.py
line 121), so the two results differ. -/
theorem c8_counterexample :
    generate_answer_node (generate_answer_node
        { query := "q",
          retrieved_docs := [{ id := "1", content := "alpha", metadata := [], score := 1 }],
          final_answer := "", processing_steps := [], error := none }) ≠
      generate_answer_node
        { query := "q",
          retrieved_docs := [{ id := "1", content := "alpha", metadata := [], score := 1 }],
          final_answer := "", processing_steps := [], error := none } := by
  decide

/-- C8 amended.  The `final_answer` field is idempotent under
`generate_answer_node`, and the full state is a fixed point of the second
application exactly on the early-exit paths: when `error` is truthy or
`retrieved_docs` is empty, a second application is a genuine no-op; when
`error` is falsy and documents are present, the second application
duplicates the "Generated final answer" provenance entry, so full-state
idempotence fails. -/
theorem c8_amended_theorem (s : PipelineState) :
    ((generate_answer_node (generate_answer_node s)).final_answer =
        (generate_answer_node s).final_answer) ∧
      ((pyTruthyStr s.error = true ∨ s.retrieved_docs = []) →
        generate_answer_node (generate_answer_node s) = generate_answer_node s) ∧
      (pyTruthyStr s.error = false → s.retrieved_docs ≠ [] →
        (generate_answer_node (generate_answer_node s)).processing_steps =
          s.processing_steps ++ ["Generated final answer", "Generated final answer"]) := by
  by_cases he : pyTruthyStr s.error = true
  · refine ⟨?_, ?_, ?_⟩
    · simp [generate_answer_node, he]
    · intro _
      simp [generate_answer_node, he]
    · intro hf
      rw [he] at hf
      exact absurd hf (by simp)
  · have he' : pyTruthyStr s.error = false := by
      revert he
      cases pyTruthyStr s.error <;> simp
    cases hd : s.retrieved_docs with
    | nil =>
        refine ⟨?_, ?_, ?_⟩
        · simp [generate_answer_node, he', hd]
        · intro _
          simp [generate_answer_node, he', hd]
        · intro _ hne
          exact absurd rfl hne
    | cons d rest =>
        refine ⟨?_, ?_, ?_⟩
        · simp [generate_answer_node, he', hd]
        · intro hcase
          rcases hcase with hc | hc
          · exact absurd hc (by simp [he'])
          · exact absurd hc (by simp)
        · intro _ _
          simp [generate_answer_node, he', hd]

/-- C8 witness: the amended statement evaluated on a concrete empty-docs
state (second application is a no-op) and on a concrete one-document
state (the provenance entry is duplicated). -/
theorem c8_witness :
    generate_answer_node (generate_answer_node (create_initial_state "q")) =
        generate_answer_node (create_initial_state "q") ∧
      (generate_answer_node (generate_answer_node
          { query := "q",
            retrieved_docs := [{ id := "1", content := "alpha", metadata := [], score := 1 }],
            final_answer := "", processing_steps := [], error := none })).processing_steps =
        ["Generated final answer", "Generated final answer"] := by
  constructor
  · exact (c8_amended_theorem (create_initial_state "q")).2.1 (Or.inr rfl)
  · have h := (c8_amended_theorem
      { query := "q",
        retrieved_docs := [{ id := "1", content := "alpha", metadata := [], score := 1 }],
        final_answer := "", processing_steps := [], error := none }).2.2 rfl (by decide)
    simpa using h

/-! ## C9 — fields of the result returned to the caller -/

/-- C9 counterexample.  The claim says the result record returned by the
query operation carries the query, the retrieved documents, the answer,
the steps log and the error — in particular that the caller can inspect
the error and the steps log.  The `WorkflowResult` model (main.py lines
37-41) has no error field and no steps field under any of their names, so
the final state's `error` and `processing_steps` are dropped at the
boundary. -/
theorem c9_counterexample :
    "error" ∉ workflowResultFields ∧
      "steps_completed" ∉ workflowResultFields ∧
      "processing_steps" ∉ workflowResultFields := by
  decide

/-- C9 amended.  The result returned by `query_documents` has exactly the
four fields `initial_query`, `retrieved_docs`, `final_answer` and
`processing_time`; the query, retrieved documents and answer of the final
pipeline state are propagated into it, while its `error` and
`processing_steps` are not exposed to the caller. -/
theorem c9_amended_theorem (res : Except String (List Hit)) (q : String)
    (t : ℚ) :
    workflowResultFields =
        ["initial_query", "retrieved_docs", "final_answer", "processing_time"] ∧
      (query_documents res q t).initial_query = q ∧
      (query_documents res q t).retrieved_docs = (runQuery res q).retrieved_docs ∧
      (query_documents res q t).final_answer = (runQuery res q).final_answer ∧
      (query_documents res q t).processing_time = t := by
  exact ⟨rfl, rfl, rfl, rfl, rfl⟩

/-! ## C10 — totality, length, range and determinism of the embedding -/

/-- C10 confirmed.  For every generator model of the `random` module whose
single `random.random()` step yields a value in [0,1) — the module's
documented contract — `generate_embedding` is total and returns a list of
exactly `global_embedding_dim = 384` values, each in [0,1); its output is
independent of the generator state prior to the call (because
`random.seed` is invoked first), and two calls whose inputs have equal
hashes — in particular two calls with equal input strings — return equal
lists. -/
theorem c10_theorem {σ : Type} (init : Nat → σ) (next : σ → ℚ × σ)
    (hash : String → Int)
    (hnext : ∀ g : σ, 0 ≤ (next g).1 ∧ (next g).1 < 1)
    (g0 g1 : σ) (t t' : String) :
    (generate_embedding init next hash g0 t).1.length = 384 ∧
      (∀ x ∈ (generate_embedding init next hash g0 t).1, 0 ≤ x ∧ x < 1) ∧
      generate_embedding init next hash g0 t =
        generate_embedding init next hash g1 t ∧
      (hash t = hash t' →
        (generate_embedding init next hash g0 t).1 =
          (generate_embedding init next hash g1 t').1) := by
  refine ⟨drawN_length next _ global_embedding_dim, ?_, rfl, ?_⟩
  · exact drawN_mem_range next hnext _ _
  · intro hh
    simp [generate_embedding, hh]

/-- C10 witness: the theorem evaluated on a concrete generator model
(constant output 1/2, counter state) and a concrete hash, at the input
"abc": the output has 384 entries, its first entry is in [0,1), and the
output is independent of the prior generator state. -/
theorem c10_witness :
    (generate_embedding (fun n : Nat => n) (fun s => ((1 : ℚ) / 2, s + 1))
          (fun s => (s.length : Int)) 0 "abc").1.length = 384 ∧
      (0 ≤ (1 : ℚ) / 2 ∧ (1 : ℚ) / 2 < 1) ∧
      (generate_embedding (fun n : Nat => n) (fun s => ((1 : ℚ) / 2, s + 1))
          (fun s => (s.length : Int)) 0 "abc").1 =
        (generate_embedding (fun n : Nat => n) (fun s => ((1 : ℚ) / 2, s + 1))
          (fun s => (s.length : Int)) 7 "abc").1 := by
  have hnext : ∀ g : Nat,
      0 ≤ ((fun s : Nat => ((1 : ℚ) / 2, s + 1)) g).1 ∧
        ((fun s : Nat => ((1 : ℚ) / 2, s + 1)) g).1 < 1 := by
    intro g
    norm_num
  have hmem : ((1 : ℚ) / 2) ∈ (generate_embedding (fun n : Nat => n)
      (fun s => ((1 : ℚ) / 2, s + 1)) (fun s => (s.length : Int)) 0 "abc").1 := by
    simp only [generate_embedding]
    rw [show global_embedding_dim = 383 + 1 from rfl, drawN_cons]
    exact List.mem_cons_self _ _
  have h := c10_theorem (fun n : Nat => n) (fun s => ((1 : ℚ) / 2, s + 1))
    (fun s => (s.length : Int)) hnext 0 7 "abc" "abc"
  exact ⟨h.1, h.2.1 _ hmem, h.2.2.2 rfl⟩
